import Mathlib

/-!
Verification of the procedural audio engine in `src/utils/soundUtils.ts`
(ICE-CREAM3D).  The module-level mutable variables of the TypeScript file
become the fields of `SoundState`; every exported function becomes a pure
state transformer.  Times and frequencies are exact rationals (the source
uses IEEE doubles only for audio-rate values; every claim is about the
symbolic arithmetic, so `ℚ` is the faithful carrier).  Voices committed to
the Web Audio backend (`osc.start`/`osc.stop` pairs) are recorded in the
`scheduled` list; pending `setTimeout` callbacks are counted in
`pendingTimers`.  Audio-context construction (`new AudioContext()`) can
fail, which we model with a `ctxOK : Bool` environment flag; a function
with no try/catch around `getContext` propagates the failure as
`Except.error`.
-/

/-- Oscillator waveform, mirroring the Web Audio `OscillatorType` values
used by the source. -/
inductive Waveform
  | sine
  | square
  | triangle
  | sawtooth
deriving DecidableEq, Fintype

/-- One melody/bass table entry `{ f: frequency, d: duration in 16th notes }`
(soundUtils.ts line 26). -/
structure Note where
  f : ℚ
  d : ℕ
deriving DecidableEq

-- Note frequency table `NOTES` (soundUtils.ts lines 17-23).
namespace NOTES

def C3 : ℚ := 130.81
def D3 : ℚ := 146.83
def E3 : ℚ := 164.81
def F3 : ℚ := 174.61
def G3 : ℚ := 196.00
def A3 : ℚ := 220.00
def B3 : ℚ := 246.94
def C4 : ℚ := 261.63
def D4 : ℚ := 293.66
def E4 : ℚ := 329.63
def F4 : ℚ := 349.23
def G4 : ℚ := 392.00
def A4 : ℚ := 440.00
def B4 : ℚ := 493.88
def C5 : ℚ := 523.25
def D5 : ℚ := 587.33
def E5 : ℚ := 659.25
def F5 : ℚ := 698.46
def G5 : ℚ := 783.99
def A5 : ℚ := 880.00
def C6 : ℚ := 1046.50
def D6 : ℚ := 1174.66

end NOTES

/-- The melody track (soundUtils.ts lines 27-43). -/
def melody : List Note := [
  ⟨NOTES.C4, 2⟩, ⟨NOTES.E4, 2⟩, ⟨NOTES.G4, 2⟩, ⟨NOTES.C5, 2⟩,
  ⟨NOTES.E5, 4⟩, ⟨NOTES.G5, 4⟩,
  ⟨NOTES.F5, 2⟩, ⟨NOTES.D5, 2⟩, ⟨NOTES.B4, 2⟩, ⟨NOTES.G4, 2⟩,
  ⟨NOTES.E4, 4⟩, ⟨NOTES.C4, 4⟩,
  ⟨NOTES.F4, 2⟩, ⟨NOTES.A4, 2⟩, ⟨NOTES.C5, 2⟩, ⟨NOTES.F5, 2⟩,
  ⟨NOTES.A5, 4⟩, ⟨NOTES.F5, 4⟩,
  ⟨NOTES.G4, 2⟩, ⟨NOTES.B4, 2⟩, ⟨NOTES.D5, 2⟩, ⟨NOTES.G5, 2⟩,
  ⟨NOTES.B4, 8⟩]

/-- The bass track (soundUtils.ts lines 46-55). -/
def bassLine : List Note := [
  ⟨NOTES.C3, 4⟩, ⟨NOTES.G3, 4⟩, ⟨NOTES.C3, 4⟩, ⟨NOTES.E3, 4⟩,
  ⟨NOTES.G3, 4⟩, ⟨NOTES.D3, 4⟩, ⟨NOTES.G3, 4⟩, ⟨NOTES.B3, 4⟩,
  ⟨NOTES.F3, 4⟩, ⟨NOTES.C4, 4⟩, ⟨NOTES.F3, 4⟩, ⟨NOTES.A3, 4⟩,
  ⟨NOTES.G3, 4⟩, ⟨NOTES.D4, 4⟩, ⟨NOTES.G3, 8⟩]

/-- A voice committed to the audio backend: oscillator waveform, its
frequency curve endpoints (`freqStart` at the start, `freqEnd` reached by
the final ramp), the peak of its gain envelope, and the absolute
`osc.start`/`osc.stop` times. -/
structure Voice where
  wave : Waveform
  freqStart : ℚ
  freqEnd : ℚ
  gainPeak : ℚ
  start : ℚ
  stop : ℚ
deriving DecidableEq

/-- The module-level mutable state of soundUtils.ts (lines 6-14), plus the
audio backend's view: `scheduled` holds every voice committed so far and
`pendingTimers` counts armed-but-not-yet-fired `setTimeout` callbacks.
`audioCtx : Bool` records whether the lazily created context exists;
`musicGainNode : Bool` likewise for the music bus gain node. -/
structure SoundState where
  audioCtx : Bool
  sfxVolume : ℚ
  musicVolume : ℚ
  musicPlaying : Bool
  nextNoteTime : ℚ
  timerID : Option ℕ
  currentNote : ℕ
  musicGainNode : Bool
  currentBPM : ℚ
  scheduled : List Voice
  pendingTimers : ℕ
deriving DecidableEq

/-- Initial values of the module variables (soundUtils.ts lines 6-14). -/
def initState : SoundState :=
  { audioCtx := false, sfxVolume := 0.5, musicVolume := 0.3,
    musicPlaying := false, nextNoteTime := 0, timerID := none,
    currentNote := 0, musicGainNode := false, currentBPM := 110,
    scheduled := [], pendingTimers := 0 }

/-- `getContext` (lines 57-62): returns the existing context or constructs
one.  Construction (`new AudioContext()`) can throw; `ctxOK` says whether
the platform allows it.  The thrown exception is the `Except.error`. -/
def getContext (ctxOK : Bool) (s : SoundState) : Except Unit SoundState :=
  if s.audioCtx then .ok s
  else if ctxOK then .ok { s with audioCtx := true }
  else .error ()

/-- `setVolumes` (lines 64-70): stores both volumes unconditionally.  (The
ramp it requests on the music bus gain node changes no field modelled
here: it touches neither the stored volumes nor any committed voice.) -/
def setVolumes (sfx music : ℚ) (s : SoundState) : SoundState :=
  { s with sfxVolume := sfx, musicVolume := music }

/-- `setBPM` (lines 72-74): stores the tempo unconditionally. -/
def setBPM (bpm : ℚ) (s : SoundState) : SoundState :=
  { s with currentBPM := bpm }

/-- `scheduleNote(time)` (lines 76-149).  Looks the melody note up at
`currentNote % melody.length` and the bass note at
`currentNote % bassLine.length`, commits one triangle melody voice and one
sine bass voice spanning `[time, time + d * sixteenthNoteTime]`, then
advances `nextNoteTime` by the melody note's span and increments
`currentNote`.  The `match … | none` branches mirror the source's
`if (note)` guards (the advance would be NaN in JS on the impossible
`none`; we use `0` and prove the branch unreachable). -/
def scheduleNote (time : ℚ) (s : SoundState) : SoundState :=
  if s.audioCtx then
    let s1 := { s with musicGainNode := true }
    let secondsPerBeat : ℚ := 60 / s1.currentBPM
    let sixteenthNoteTime : ℚ := secondsPerBeat / 4
    let noteIndex := s1.currentNote % melody.length
    let melodyVs : List Voice :=
      match melody[noteIndex]? with
      | some note =>
          [{ wave := .triangle, freqStart := note.f, freqEnd := note.f,
             gainPeak := 0.1, start := time,
             stop := time + note.d * sixteenthNoteTime }]
      | none => []
    let bassIndex := s1.currentNote % bassLine.length
    let bassVs : List Voice :=
      match bassLine[bassIndex]? with
      | some bassNote =>
          [{ wave := .sine, freqStart := bassNote.f, freqEnd := bassNote.f,
             gainPeak := 0.15, start := time,
             stop := time + bassNote.d * sixteenthNoteTime }]
      | none => []
    let advance : ℚ :=
      match melody[noteIndex]? with
      | some note => note.d * sixteenthNoteTime
      | none => 0
    { s1 with scheduled := s1.scheduled ++ melodyVs ++ bassVs,
              nextNoteTime := s1.nextNoteTime + advance,
              currentNote := s1.currentNote + 1 }
  else s

/-- The clock reading `(audioCtx?.currentTime || 0)` in `scheduler`
(line 155). -/
def clockNow (now : ℚ) (s : SoundState) : ℚ :=
  if s.audioCtx then now else 0

/-- The `while (nextNoteTime < now + 0.1) scheduleNote(nextNoteTime)` loop
of `scheduler` (lines 155-157), with explicit fuel.  The Bool is `true`
when the loop exited because its condition became false, `false` when the
fuel ran out first. -/
def schedulerLoop (now : ℚ) : ℕ → SoundState → SoundState × Bool
  | 0, s =>
      if s.nextNoteTime < clockNow now s + 0.1 then (s, false) else (s, true)
  | fuel + 1, s =>
      if s.nextNoteTime < clockNow now s + 0.1 then
        schedulerLoop now fuel (scheduleNote s.nextNoteTime s)
      else (s, true)

/-- One call of `scheduler` (lines 151-159): bail out if not playing, run
the look-ahead loop, then re-arm itself via `setTimeout(scheduler, 25)`
(modelled as storing the new timer id and counting one more pending
timer). -/
def scheduler (fuel : ℕ) (now : ℚ) (tid : ℕ) (s : SoundState) :
    SoundState × Bool :=
  if s.musicPlaying then
    let r := schedulerLoop now fuel s
    ({ r.1 with timerID := some tid, pendingTimers := r.1.pendingTimers + 1 },
     r.2)
  else (s, true)

/-- `startMusic` (lines 161-173).  `getContext()` runs before the
re-entrancy check and has no try/catch, so a context-construction failure
propagates to the caller.  On a fresh start the cursors are reset
(`currentNote = 0`, `nextNoteTime = now + 0.1`) and `scheduler()` is
called synchronously.  (The `ctx.resume()` call on a suspended context has
no observable effect on the modelled state.) -/
def startMusic (ctxOK : Bool) (fuel : ℕ) (now : ℚ) (tid : ℕ)
    (s : SoundState) : Except Unit SoundState :=
  match getContext ctxOK s with
  | .error e => .error e
  | .ok s1 =>
      if s1.musicPlaying then .ok s1
      else
        let s2 := { s1 with musicPlaying := true, currentNote := 0,
                            nextNoteTime := now + 0.1 }
        .ok (scheduler fuel now tid s2).1

/-- `stopMusic` (lines 175-178): clears the playing flag and cancels the
pending timer if `timerID` is set (truncated subtraction matches
`clearTimeout` being a no-op on an already-fired timer).  Nothing else is
touched: cursors keep their values and committed voices play out. -/
def stopMusic (s : SoundState) : SoundState :=
  let s1 := { s with musicPlaying := false }
  match s1.timerID with
  | some _ => { s1 with pendingTimers := s1.pendingTimers - 1 }
  | none => s1

/-- The ten flavor identifiers (src/types.ts). -/
inductive Flavor
  | VANILLA
  | CHOCOLATE
  | STRAWBERRY
  | MINT
  | BLUEBERRY
  | LEMON
  | COFFEE
  | Pistachio
  | MANGO
  | COOKIE_DOUGH
deriving DecidableEq, Fintype

/-- The `(waveform, base frequency, duration)` profile the `switch` in
`playFlavorSound` (lines 216-264) assigns to each flavor; the defaults
`(sine, 440, 0.15)` are overridden per case, only LEMON shortening the
duration to `0.1`. -/
def flavorProfile : Flavor → Waveform × ℚ × ℚ
  | .VANILLA => (.sine, NOTES.A4, 0.15)
  | .CHOCOLATE => (.square, NOTES.A3, 0.15)
  | .STRAWBERRY => (.sine, NOTES.E5, 0.15)
  | .MINT => (.triangle, NOTES.A5, 0.15)
  | .BLUEBERRY => (.sine, NOTES.E4, 0.15)
  | .LEMON => (.sawtooth, NOTES.D6, 0.1)
  | .COFFEE => (.sawtooth, NOTES.A3 / 2, 0.15)
  | .Pistachio => (.triangle, NOTES.C5, 0.15)
  | .MANGO => (.sine, NOTES.C5, 0.15)
  | .COOKIE_DOUGH => (.square, NOTES.E3, 0.15)

/-- `playPopSound` (lines 180-203): one sine voice gliding 600→300 Hz over
100 ms at gain `0.3 * sfxVolume`; the whole body is inside try/catch, so a
context failure leaves the state untouched. -/
def playPopSound (ctxOK : Bool) (now : ℚ) (s : SoundState) : SoundState :=
  match getContext ctxOK s with
  | .error _ => s
  | .ok s1 =>
      { s1 with scheduled := s1.scheduled ++
          [{ wave := .sine, freqStart := 600, freqEnd := 300,
             gainPeak := 0.3 * s1.sfxVolume, start := now,
             stop := now + 0.1 }] }

/-- `playFlavorSound` (lines 205-278): one voice with the flavor's fixed
profile, frequency gliding down to `0.8 ×` the base, gain
`0.2 * sfxVolume`; body inside try/catch. -/
def playFlavorSound (ctxOK : Bool) (now : ℚ) (flavor : Flavor)
    (s : SoundState) : SoundState :=
  match getContext ctxOK s with
  | .error _ => s
  | .ok s1 =>
      let p := flavorProfile flavor
      { s1 with scheduled := s1.scheduled ++
          [{ wave := p.1, freqStart := p.2.1, freqEnd := p.2.1 * 0.8,
             gainPeak := 0.2 * s1.sfxVolume, start := now,
             stop := now + p.2.2 }] }

/-- The arpeggio frequency array of `playSuccessSound` (line 288). -/
def successFreqs : List ℚ := [NOTES.C5, NOTES.E5, NOTES.G5, NOTES.C6]

/-- One voice of the success arpeggio (`forEach` body, lines 288-304):
triangle at `freq`, starting `i * 80 ms` after the trigger, peak gain
`0.2 * sfx` and a 400 ms decay/stop. -/
def successVoice (now sfx : ℚ) (i : ℕ) (freq : ℚ) : Voice :=
  { wave := .triangle, freqStart := freq, freqEnd := freq,
    gainPeak := 0.2 * sfx, start := now + i * 0.08,
    stop := now + i * 0.08 + 0.4 }

/-- `playSuccessSound` (lines 280-306): four staggered arpeggio voices;
body inside try/catch. -/
def playSuccessSound (ctxOK : Bool) (now : ℚ) (s : SoundState) :
    SoundState :=
  match getContext ctxOK s with
  | .error _ => s
  | .ok s1 =>
      { s1 with scheduled := s1.scheduled ++
          (successFreqs.enum.map fun p => successVoice now s1.sfxVolume p.1 p.2) }

/-- `playErrorSound` (lines 308-329): one sawtooth voice gliding
150→100 Hz over 300 ms at gain `0.3 * sfxVolume`; body inside
try/catch. -/
def playErrorSound (ctxOK : Bool) (now : ℚ) (s : SoundState) : SoundState :=
  match getContext ctxOK s with
  | .error _ => s
  | .ok s1 =>
      { s1 with scheduled := s1.scheduled ++
          [{ wave := .sawtooth, freqStart := 150, freqEnd := 100,
             gainPeak := 0.3 * s1.sfxVolume, start := now,
             stop := now + 0.3 }] }

/-- `playGameOverSound` (lines 331-356): one square voice stepped
200→150→100 Hz, fading linearly to 0 by `now + 1`; body inside
try/catch. -/
def playGameOverSound (ctxOK : Bool) (now : ℚ) (s : SoundState) :
    SoundState :=
  match getContext ctxOK s with
  | .error _ => s
  | .ok s1 =>
      { s1 with scheduled := s1.scheduled ++
          [{ wave := .square, freqStart := 200, freqEnd := 100,
             gainPeak := 0.2 * s1.sfxVolume, start := now,
             stop := now + 1 }] }

/-- `scheduleNote s.nextNoteTime s`: one iteration of the scheduler's
look-ahead loop body. -/
def stepOnce (s : SoundState) : SoundState :=
  scheduleNote s.nextNoteTime s

/-- The state after `k` loop iterations. -/
def afterSteps (k : ℕ) (s : SoundState) : SoundState :=
  stepOnce^[k] s

/-- Concrete state with the audio context created and everything else at
its initial value; used to instantiate hypothesis-bearing theorems. -/
def ctxState : SoundState := { initState with audioCtx := true }

/-- The list of all ten flavor identifiers. -/
def allFlavors : List Flavor :=
  [.VANILLA, .CHOCOLATE, .STRAWBERRY, .MINT, .BLUEBERRY,
   .LEMON, .COFFEE, .Pistachio, .MANGO, .COOKIE_DOUGH]

lemma melody_length_pos : 0 < melody.length := by decide

lemma bassLine_length_pos : 0 < bassLine.length := by decide

lemma melody_d_ge_two : ∀ i : Fin melody.length, 2 ≤ (melody.get i).d := by decide

lemma melody_lookup (n : ℕ) :
    ∃ note : Note, melody[n % melody.length]? = some note ∧ 2 ≤ note.d := by
  have h : n % melody.length < melody.length := Nat.mod_lt _ melody_length_pos
  refine ⟨melody[n % melody.length], List.getElem?_eq_getElem h, ?_⟩
  simpa using melody_d_ge_two ⟨n % melody.length, h⟩

lemma bassLine_lookup (n : ℕ) :
    ∃ bn : Note, bassLine[n % bassLine.length]? = some bn := by
  have h : n % bassLine.length < bassLine.length := Nat.mod_lt _ bassLine_length_pos
  exact ⟨bassLine[n % bassLine.length], List.getElem?_eq_getElem h⟩

lemma scheduleNote_eq (t : ℚ) (s : SoundState) (hc : s.audioCtx = true)
    {note bn : Note}
    (hm : melody[s.currentNote % melody.length]? = some note)
    (hb : bassLine[s.currentNote % bassLine.length]? = some bn) :
    scheduleNote t s =
      { s with musicGainNode := true,
               scheduled := s.scheduled ++
                 [{ wave := .triangle, freqStart := note.f, freqEnd := note.f,
                    gainPeak := 0.1, start := t,
                    stop := t + note.d * (60 / s.currentBPM / 4) },
                  { wave := .sine, freqStart := bn.f, freqEnd := bn.f,
                    gainPeak := 0.15, start := t,
                    stop := t + bn.d * (60 / s.currentBPM / 4) }],
               nextNoteTime := s.nextNoteTime + note.d * (60 / s.currentBPM / 4),
               currentNote := s.currentNote + 1 } := by
  simp only [scheduleNote, hc, if_true, hm, hb]
  simp

/-- C5 counterexample: the setters perform no validation.  `setBPM (-5)`
replaces the valid tempo 110 with the invalid value -5, and
`setVolumes 2 (-1)` stores both out-of-range volumes; nothing is rejected
and the previous valid values are not retained. -/
theorem setters_validation_cex :
    (setBPM (-5) initState).currentBPM = -5 ∧
    ((-5 : ℚ) ≤ 0) ∧
    initState.currentBPM = 110 ∧
    (setBPM (-5) initState).currentBPM ≠ initState.currentBPM ∧
    (setVolumes 2 (-1) initState).sfxVolume = 2 ∧
    ¬ ((2 : ℚ) ≤ 1) ∧
    (setVolumes 2 (-1) initState).musicVolume = -1 ∧
    ¬ ((0 : ℚ) ≤ -1) := by
  refine ⟨rfl, by norm_num, rfl, by norm_num [setBPM, initState], rfl,
    by norm_num, rfl, by norm_num⟩

/-- C5 amended: `setBPM` and `setVolumes` store their arguments
unconditionally, for every argument value; there is no boundary check and
no value is ever rejected or retained. -/
theorem setters_store_unconditionally (bpm sfx music : ℚ) (s : SoundState) :
    setBPM bpm s = { s with currentBPM := bpm } ∧
    setVolumes sfx music s = { s with sfxVolume := sfx, musicVolume := music } :=
  ⟨rfl, rfl⟩


set_option maxHeartbeats 1000000 in
lemma flavorProfile_pairwise :
    allFlavors.Pairwise (fun a b => flavorProfile a ≠ flavorProfile b) := by
  simp only [allFlavors, List.pairwise_cons, List.mem_cons, List.mem_singleton,
    List.not_mem_nil, List.Pairwise.nil]
  norm_num [flavorProfile, Prod.ext_iff, NOTES.A4, NOTES.A3, NOTES.E5,
    NOTES.A5, NOTES.E4, NOTES.D6, NOTES.C5, NOTES.E3]
  decide

/-- C7: each flavor identifier maps to a fixed (waveform, base frequency,
duration) profile, identical on every trigger; the ten profiles are
pairwise distinct as triples; and the voice created by `playFlavorSound`
ends with a downward frequency glide (to 0.8 of the base frequency) from
its base frequency. -/
theorem flavor_profiles_distinct_and_glide (flavor : Flavor) (now : ℚ)
    (s : SoundState) :
    allFlavors.Pairwise (fun a b => flavorProfile a ≠ flavorProfile b) ∧
    (∀ g : Flavor, g ∈ allFlavors) ∧
    ∃ v : Voice,
      (playFlavorSound true now flavor s).scheduled = s.scheduled ++ [v] ∧
      v.wave = (flavorProfile flavor).1 ∧
      v.freqStart = (flavorProfile flavor).2.1 ∧
      v.stop - v.start = (flavorProfile flavor).2.2 ∧
      v.freqEnd = v.freqStart * 0.8 ∧
      v.freqEnd < v.freqStart := by
  refine ⟨flavorProfile_pairwise, by intro g; cases g <;> decide, ?_⟩
  have hfreq : 0 < (flavorProfile flavor).2.1 := by
    cases flavor <;> norm_num [flavorProfile, NOTES.A4, NOTES.A3, NOTES.E5,
      NOTES.A5, NOTES.E4, NOTES.D6, NOTES.C5, NOTES.E3]
  refine ⟨{ wave := (flavorProfile flavor).1,
            freqStart := (flavorProfile flavor).2.1,
            freqEnd := (flavorProfile flavor).2.1 * 0.8,
            gainPeak := 0.2 * s.sfxVolume, start := now,
            stop := now + (flavorProfile flavor).2.2 }, ?_, rfl, rfl,
          by ring, rfl, by nlinarith⟩
  cases h : s.audioCtx <;> simp [playFlavorSound, getContext, h]

/-- C8: `playSuccessSound` always commits exactly four triangle voices, an
ascending fixed-frequency arpeggio (C5 < E5 < G5 < C6), with start
offsets 0, 80, 160 and 240 ms from the trigger time and a 400 ms
decay/stop each; after `setVolumes 0 0` the four voices are still created
with peak gain scaled to 0. -/
theorem success_four_voice_arpeggio (now : ℚ) (s : SoundState) :
    (playSuccessSound true now s).scheduled = s.scheduled ++
      [successVoice now s.sfxVolume 0 NOTES.C5,
       successVoice now s.sfxVolume 1 NOTES.E5,
       successVoice now s.sfxVolume 2 NOTES.G5,
       successVoice now s.sfxVolume 3 NOTES.C6] ∧
    NOTES.C5 < NOTES.E5 ∧ NOTES.E5 < NOTES.G5 ∧ NOTES.G5 < NOTES.C6 ∧
    (successVoice now s.sfxVolume 0 NOTES.C5).start = now ∧
    (successVoice now s.sfxVolume 1 NOTES.E5).start = now + 0.08 ∧
    (successVoice now s.sfxVolume 2 NOTES.G5).start = now + 0.16 ∧
    (successVoice now s.sfxVolume 3 NOTES.C6).start = now + 0.24 ∧
    (∀ i : ℕ, ∀ freq : ℚ,
      (successVoice now s.sfxVolume i freq).wave = .triangle ∧
      (successVoice now s.sfxVolume i freq).freqStart = freq ∧
      (successVoice now s.sfxVolume i freq).stop =
        (successVoice now s.sfxVolume i freq).start + 0.4 ∧
      (successVoice now s.sfxVolume i freq).gainPeak = 0.2 * s.sfxVolume) ∧
    (playSuccessSound true now (setVolumes 0 0 s)).scheduled = s.scheduled ++
      [successVoice now 0 0 NOTES.C5, successVoice now 0 1 NOTES.E5,
       successVoice now 0 2 NOTES.G5, successVoice now 0 3 NOTES.C6] ∧
    (∀ i : ℕ, ∀ freq : ℚ, (successVoice now 0 i freq).gainPeak = 0) := by
  refine ⟨?_, by norm_num [NOTES.C5, NOTES.E5], by norm_num [NOTES.E5, NOTES.G5],
    by norm_num [NOTES.G5, NOTES.C6], by simp [successVoice],
    by norm_num [successVoice], by norm_num [successVoice],
    by norm_num [successVoice],
    fun i freq => ⟨rfl, rfl, rfl, rfl⟩, ?_,
    fun i freq => by norm_num [successVoice]⟩
  · cases h : s.audioCtx <;>
      simp [playSuccessSound, getContext, h, successFreqs, List.enum]
  · cases h : s.audioCtx <;>
      simp [playSuccessSound, getContext, h, successFreqs, List.enum,
        setVolumes]

/-- C1: when a step is scheduled at tempo `bpm > 0`, the melody voice
committed by `scheduleNote(nextNoteTime)` spans exactly
`[nextNoteTime, nextNoteTime + durationSteps * (60/bpm/4)]` (the bass
voice likewise with its own step count), the span is strictly positive,
and a later `setBPM` changes only the stored tempo: every field of the
state other than `currentBPM`, in particular the committed voice list with
its start/stop times, is untouched. -/
theorem melody_voice_span_tempo_snapshot (s : SoundState) (b : ℚ)
    (hc : s.audioCtx = true) (hb : 0 < s.currentBPM) :
    ∃ note bn : Note,
      melody[s.currentNote % melody.length]? = some note ∧
      bassLine[s.currentNote % bassLine.length]? = some bn ∧
      (stepOnce s).scheduled = s.scheduled ++
        [{ wave := .triangle, freqStart := note.f, freqEnd := note.f,
           gainPeak := 0.1, start := s.nextNoteTime,
           stop := s.nextNoteTime + note.d * (60 / s.currentBPM / 4) },
         { wave := .sine, freqStart := bn.f, freqEnd := bn.f,
           gainPeak := 0.15, start := s.nextNoteTime,
           stop := s.nextNoteTime + bn.d * (60 / s.currentBPM / 4) }] ∧
      s.nextNoteTime < s.nextNoteTime + note.d * (60 / s.currentBPM / 4) ∧
      setBPM b (stepOnce s) = { stepOnce s with currentBPM := b } ∧
      (setBPM b (stepOnce s)).scheduled = (stepOnce s).scheduled := by
  obtain ⟨note, hm, hd⟩ := melody_lookup s.currentNote
  obtain ⟨bn, hbn⟩ := bassLine_lookup s.currentNote
  refine ⟨note, bn, hm, hbn, ?_, ?_, rfl, rfl⟩
  · rw [stepOnce, scheduleNote_eq s.nextNoteTime s hc hm hbn]
  · have hdq : (2 : ℚ) ≤ (note.d : ℚ) := by exact_mod_cast hd
    have hpos : 0 < (60 / s.currentBPM / 4 : ℚ) := by positivity
    nlinarith

lemma stepOnce_basic (s : SoundState) (hc : s.audioCtx = true) :
    (stepOnce s).audioCtx = true ∧
    (stepOnce s).currentNote = s.currentNote + 1 ∧
    (stepOnce s).currentBPM = s.currentBPM := by
  obtain ⟨note, hm, _⟩ := melody_lookup s.currentNote
  obtain ⟨bn, hbn⟩ := bassLine_lookup s.currentNote
  rw [stepOnce, scheduleNote_eq s.nextNoteTime s hc hm hbn]
  exact ⟨hc, rfl, rfl⟩

lemma afterSteps_currentNote (k : ℕ) (s : SoundState) (hc : s.audioCtx = true) :
    (afterSteps k s).audioCtx = true ∧
    (afterSteps k s).currentNote = s.currentNote + k := by
  induction k with
  | zero => exact ⟨hc, rfl⟩
  | succ k ih =>
      have he : afterSteps (k + 1) s = stepOnce (afterSteps k s) := by
        simp [afterSteps, Function.iterate_succ_apply']
      have hstep := stepOnce_basic (afterSteps k s) ih.1
      rw [he]
      exact ⟨hstep.1, by rw [hstep.2.1, ih.2]; omega⟩

/-- C2: after `k` scheduling steps from a freshly started cursor
(`currentNote = 0`), the melody index read at the next step is
`k % melody.length` and the bass index is `k % bassLine.length`, both
strictly below their track lengths, so every track access is in bounds;
successive indices follow the cyclic sequence 0,1,…,len-1,0,1,…. -/
theorem track_index_cyclic_in_bounds (k : ℕ) (s : SoundState)
    (hc : s.audioCtx = true) (h0 : s.currentNote = 0) :
    (afterSteps k s).currentNote = k ∧
    (afterSteps k s).currentNote % melody.length = k % melody.length ∧
    (afterSteps k s).currentNote % bassLine.length = k % bassLine.length ∧
    k % melody.length < melody.length ∧
    k % bassLine.length < bassLine.length ∧
    (melody[(afterSteps k s).currentNote % melody.length]?).isSome = true ∧
    (bassLine[(afterSteps k s).currentNote % bassLine.length]?).isSome = true ∧
    (afterSteps (k + 1) s).currentNote % melody.length =
      ((afterSteps k s).currentNote + 1) % melody.length := by
  have h := afterSteps_currentNote k s hc
  have hk : (afterSteps k s).currentNote = k := by rw [h.2, h0]; omega
  have hk1 : (afterSteps (k + 1) s).currentNote = k + 1 := by
    rw [(afterSteps_currentNote (k + 1) s hc).2, h0]; omega
  obtain ⟨note, hm, _⟩ := melody_lookup k
  obtain ⟨bn, hbn⟩ := bassLine_lookup k
  refine ⟨hk, by rw [hk], by rw [hk],
    Nat.mod_lt _ melody_length_pos, Nat.mod_lt _ bassLine_length_pos,
    by rw [hk, hm]; rfl, by rw [hk, hbn]; rfl, by rw [hk1, hk]⟩

lemma schedulerLoop_exit (now : ℚ) (fuel : ℕ) (s : SoundState)
    (h : ¬ s.nextNoteTime < clockNow now s + 0.1) :
    schedulerLoop now fuel s = (s, true) := by
  cases fuel <;> simp [schedulerLoop, h]

lemma startMusic_of_playing (ctxOK : Bool) (fuel tid : ℕ) (now : ℚ)
    (s : SoundState) (hp : s.musicPlaying = true) (hc : s.audioCtx = true) :
    startMusic ctxOK fuel now tid s = .ok s := by
  simp [startMusic, getContext, hc, hp]

/-- The state an external caller observes after invoking `startMusic`: the
new state on normal return, the old state when the call throws. -/
def runStart (ctxOK : Bool) (fuel tid : ℕ) (s : SoundState) (now : ℚ) :
    SoundState :=
  match startMusic ctxOK fuel now tid s with
  | .ok s1 => s1
  | .error _ => s

lemma runStart_of_playing (ctxOK : Bool) (fuel tid : ℕ) (now : ℚ)
    (s : SoundState) (hp : s.musicPlaying = true) (hc : s.audioCtx = true) :
    runStart ctxOK fuel tid s now = s := by
  simp [runStart, startMusic_of_playing ctxOK fuel tid now s hp hc]

lemma foldl_runStart_of_playing (ctxOK : Bool) (fuel tid : ℕ) :
    ∀ (l : List ℚ) (s : SoundState), s.musicPlaying = true →
      s.audioCtx = true → l.foldl (runStart ctxOK fuel tid) s = s := by
  intro l
  induction l with
  | nil => intro s _ _; rfl
  | cons a l ih =>
      intro s hp hc
      rw [List.foldl_cons, runStart_of_playing ctxOK fuel tid a s hp hc,
        ih s hp hc]

lemma startMusic_fresh (ctxOK : Bool) (fuel tid : ℕ) (now : ℚ)
    (s : SoundState) (hp : s.musicPlaying = false) (hc : s.audioCtx = true) :
    startMusic ctxOK fuel now tid s = .ok
      { s with musicPlaying := true, currentNote := 0,
               nextNoteTime := now + 0.1, timerID := some tid,
               pendingTimers := s.pendingTimers + 1 } := by
  have hexit := schedulerLoop_exit now fuel
    { s with musicPlaying := true, currentNote := 0,
             nextNoteTime := now + 0.1 }
    (by simp [clockNow, hc])
  rw [hc] at hexit
  simp [startMusic, getContext, hc, hp, scheduler, hexit]

/-- C3: starting from a stopped state with no polling loop, the first
`startMusic` call switches playback on and arms exactly one polling loop;
every further `startMusic` call without an intervening `stopMusic` is a
no-op that returns the state unchanged (cursor, schedule time, playing
flag), so after any such sequence exactly one polling loop is active. -/
theorem startMusic_reentrant_single_loop (ctxOK : Bool) (fuel tid : ℕ)
    (now0 : ℚ) (nows : List ℚ) (s : SoundState)
    (hp : s.musicPlaying = false) (hc : s.audioCtx = true)
    (ht : s.pendingTimers = 0) :
    (runStart ctxOK fuel tid s now0).musicPlaying = true ∧
    (runStart ctxOK fuel tid s now0).pendingTimers = 1 ∧
    (∀ now1, startMusic ctxOK fuel now1 tid (runStart ctxOK fuel tid s now0) =
      .ok (runStart ctxOK fuel tid s now0)) ∧
    nows.foldl (runStart ctxOK fuel tid) (runStart ctxOK fuel tid s now0) =
      runStart ctxOK fuel tid s now0 ∧
    (nows.foldl (runStart ctxOK fuel tid)
      (runStart ctxOK fuel tid s now0)).pendingTimers = 1 := by
  have h1 := startMusic_fresh ctxOK fuel tid now0 s hp hc
  have hr : runStart ctxOK fuel tid s now0 =
      { s with musicPlaying := true, currentNote := 0,
               nextNoteTime := now0 + 0.1, timerID := some tid,
               pendingTimers := s.pendingTimers + 1 } := by
    simp [runStart, h1]
  have hrp : (runStart ctxOK fuel tid s now0).musicPlaying = true := by
    rw [hr]
  have hrc : (runStart ctxOK fuel tid s now0).audioCtx = true := by
    rw [hr]; exact hc
  have hfold := foldl_runStart_of_playing ctxOK fuel tid nows
    (runStart ctxOK fuel tid s now0) hrp hrc
  refine ⟨hrp, by rw [hr]; simp [ht], ?_, hfold, by rw [hfold, hr]; simp [ht]⟩
  intro now1
  exact startMusic_of_playing ctxOK fuel tid now1 _ hrp hrc

/-- A mid-playback state: cursor advanced to step 5, next schedule time 7,
one armed polling timer.  Used to exhibit what `stopMusic` leaves
behind. -/
def stoppedCexState : SoundState :=
  { ctxState with
      musicPlaying := true, currentNote := 5, nextNoteTime := 7,
      timerID := some 3, pendingTimers := 1 }

/-- C9 counterexample: `stopMusic` does not reset the sequencer cursors.
Stopping from step 5 with next schedule time 7 leaves `currentNote = 5`
and `nextNoteTime = 7` (the reset to 0 happens only inside the next
`startMusic`), contradicting the claim that stopMusic resets them. -/
theorem stopMusic_cursors_not_reset_cex :
    (stopMusic stoppedCexState).currentNote = 5 ∧
    (stopMusic stoppedCexState).nextNoteTime = 7 ∧
    (5 : ℕ) ≠ 0 ∧
    (stopMusic stoppedCexState).musicPlaying = false := by
  refine ⟨rfl, rfl, by decide, rfl⟩

/-- C9 amended: `stopMusic` halts the polling tick (clears the playing
flag, cancels the armed timer, and a timer that still fires does nothing
and does not re-arm) and does not retroactively stop committed voices;
but it leaves the cursors (`currentNote`, `nextNoteTime`) untouched —
they are reset only by the next `startMusic`, which starts at index 0 and
schedule time `now + 0.1`. -/
theorem stopMusic_halts_tick_keeps_cursors (s : SoundState) (fuel tid : ℕ)
    (now : ℚ) (hc : s.audioCtx = true) :
    (stopMusic s).musicPlaying = false ∧
    (stopMusic s).scheduled = s.scheduled ∧
    (stopMusic s).currentNote = s.currentNote ∧
    (stopMusic s).nextNoteTime = s.nextNoteTime ∧
    (stopMusic s).pendingTimers =
      (if s.timerID.isSome then s.pendingTimers - 1 else s.pendingTimers) ∧
    (∀ fuel2 now2 tid2,
      scheduler fuel2 now2 tid2 (stopMusic s) = (stopMusic s, true)) ∧
    (∃ s1, startMusic true fuel now tid (stopMusic s) = .ok s1 ∧
       s1.currentNote = 0 ∧ s1.nextNoteTime = now + 0.1 ∧
       s1.scheduled = s.scheduled) := by
  have hstop : (stopMusic s).musicPlaying = false := by
    cases h : s.timerID <;> simp [stopMusic, h]
  refine ⟨hstop, ?_, ?_, ?_, ?_, ?_, ?_⟩
  · cases h : s.timerID <;> simp [stopMusic, h]
  · cases h : s.timerID <;> simp [stopMusic, h]
  · cases h : s.timerID <;> simp [stopMusic, h]
  · cases h : s.timerID <;> simp [stopMusic, h]
  · intro fuel2 now2 tid2
    simp [scheduler, hstop]
  · have hcs : (stopMusic s).audioCtx = true := by
      cases h : s.timerID <;> simpa [stopMusic, h] using hc
    refine ⟨_, startMusic_fresh true fuel tid now (stopMusic s) hstop hcs,
      rfl, rfl, ?_⟩
    cases h : s.timerID <;> simp [stopMusic, h]

/-- C6 counterexample: when audio-context construction fails on the very
first call, `startMusic` — whose body has no try/catch around
`getContext()` — propagates the exception to the caller instead of
returning as a silent no-op. -/
theorem startMusic_throws_on_init_failure_cex :
    startMusic false 5 3 1 initState = Except.error () := rfl

/-- C6 amended: when audio backend initialization fails, the effect
triggers (`playPopSound`, `playFlavorSound`, `playSuccessSound`,
`playErrorSound`, `playGameOverSound`) catch the failure and return with
the state unchanged, and `setVolumes`, `setBPM` and `stopMusic` never
touch the backend; but `startMusic` does not catch the failure and throws
the initialization exception into the caller. -/
theorem init_failure_noop_except_startMusic (s : SoundState) (now : ℚ)
    (fuel tid : ℕ) (flavor : Flavor) (sfx music bpm : ℚ)
    (hc : s.audioCtx = false) :
    playPopSound false now s = s ∧
    playFlavorSound false now flavor s = s ∧
    playSuccessSound false now s = s ∧
    playErrorSound false now s = s ∧
    playGameOverSound false now s = s ∧
    setVolumes sfx music s = { s with sfxVolume := sfx, musicVolume := music } ∧
    setBPM bpm s = { s with currentBPM := bpm } ∧
    (stopMusic s).scheduled = s.scheduled ∧
    (stopMusic s).audioCtx = false ∧
    startMusic false fuel now tid s = Except.error () := by
  have hg : getContext false s = Except.error () := by
    simp [getContext, hc]
  refine ⟨?_, ?_, ?_, ?_, ?_, rfl, rfl, ?_, ?_, ?_⟩
  · simp [playPopSound, hg]
  · simp [playFlavorSound, hg]
  · simp [playSuccessSound, hg]
  · simp [playErrorSound, hg]
  · simp [playGameOverSound, hg]
  · cases h : s.timerID <;> simp [stopMusic, h]
  · cases h : s.timerID <;> simpa [stopMusic, h] using hc
  · simp [startMusic, hg]

/-- A playback state stalled far behind the clock: playing, context
created, `nextNoteTime = 0` while the audio clock already reads 10. -/
def staleState : SoundState := { ctxState with musicPlaying := true }

/-- C4 counterexample: with the audio clock at 10 and `nextNoteTime = 0`,
one iteration of the scheduler's look-ahead loop commits both voices at
their stale times — start 0 and stops 3/11 and 6/11, all strictly in the
past — instead of dropping them as the claim states. -/
theorem late_voices_not_dropped_cex :
    (schedulerLoop 10 1 staleState).1.scheduled =
      [{ wave := .triangle, freqStart := NOTES.C4, freqEnd := NOTES.C4,
         gainPeak := 0.1, start := 0, stop := 3/11 },
       { wave := .sine, freqStart := NOTES.C3, freqEnd := NOTES.C3,
         gainPeak := 0.15, start := 0, stop := 6/11 }] ∧
    (0 : ℚ) < 10 ∧ (3/11 : ℚ) < 10 ∧ (6/11 : ℚ) < 10 := by
  have hm : melody[staleState.currentNote % melody.length]? =
      some ⟨NOTES.C4, 2⟩ := rfl
  have hb : bassLine[staleState.currentNote % bassLine.length]? =
      some ⟨NOTES.C3, 4⟩ := rfl
  have h1 := scheduleNote_eq staleState.nextNoteTime staleState rfl hm hb
  refine ⟨?_, by norm_num, by norm_num, by norm_num⟩
  show (schedulerLoop 10 (0 + 1) staleState).1.scheduled = _
  rw [schedulerLoop, if_pos (by norm_num [clockNow, staleState, ctxState,
    initState]), h1]
  rw [schedulerLoop]
  norm_num [staleState, ctxState, initState, clockNow, NOTES.C4, NOTES.C3]

/-- C4 amended: the scheduler contains no drop-late logic.  `scheduleNote`
commits its voices at the given time unconditionally — the time is never
compared against the audio clock — so after a long stall every step
between the stalled `nextNoteTime` and `now + 0.1` is committed (late) in
one burst. -/
theorem scheduleNote_commits_regardless_of_clock (t : ℚ) (s : SoundState)
    (hc : s.audioCtx = true) :
    ∃ vs : List Voice, vs ≠ [] ∧
      (scheduleNote t s).scheduled = s.scheduled ++ vs ∧
      ∀ v ∈ vs, v.start = t := by
  obtain ⟨note, hm, _⟩ := melody_lookup s.currentNote
  obtain ⟨bn, hbn⟩ := bassLine_lookup s.currentNote
  rw [scheduleNote_eq t s hc hm hbn]
  refine ⟨_, by simp, rfl, ?_⟩
  intro v hv
  simp only [List.mem_cons, List.not_mem_nil, or_false] at hv
  rcases hv with h | h <;> rw [h]

lemma scheduleNote_advance_lb (s : SoundState) (hc : s.audioCtx = true)
    (hb : 0 < s.currentBPM) :
    s.nextNoteTime + 30 / s.currentBPM ≤
      (scheduleNote s.nextNoteTime s).nextNoteTime ∧
    (scheduleNote s.nextNoteTime s).audioCtx = true ∧
    (scheduleNote s.nextNoteTime s).currentBPM = s.currentBPM := by
  obtain ⟨note, hm, hd⟩ := melody_lookup s.currentNote
  obtain ⟨bn, hbn⟩ := bassLine_lookup s.currentNote
  rw [scheduleNote_eq s.nextNoteTime s hc hm hbn]
  refine ⟨?_, hc, rfl⟩
  show s.nextNoteTime + 30 / s.currentBPM ≤
    s.nextNoteTime + ↑note.d * (60 / s.currentBPM / 4)
  have hdq : (2 : ℚ) ≤ (note.d : ℚ) := by exact_mod_cast hd
  have h1 : (30 / s.currentBPM : ℚ) = 2 * (60 / s.currentBPM / 4) := by
    field_simp
    ring
  have hpos : (0 : ℚ) < 60 / s.currentBPM / 4 := by positivity
  nlinarith

lemma schedulerLoop_term_of_fuel (now : ℚ) :
    ∀ (k : ℕ) (s : SoundState), s.audioCtx = true → 0 < s.currentBPM →
      now + 0.1 - s.nextNoteTime ≤ (k : ℚ) * (30 / s.currentBPM) →
      (schedulerLoop now k s).2 = true := by
  intro k
  induction k with
  | zero =>
      intro s hc hb hk
      have hstop : ¬ s.nextNoteTime < clockNow now s + 0.1 := by
        simp only [clockNow, hc, if_true]
        push_cast at hk
        push_neg
        linarith
      simp [schedulerLoop, hstop]
  | succ k ih =>
      intro s hc hb hk
      by_cases hcond : s.nextNoteTime < clockNow now s + 0.1
      · rw [schedulerLoop, if_pos hcond]
        have hadv := scheduleNote_advance_lb s hc hb
        apply ih _ hadv.2.1 (hadv.2.2 ▸ hb)
        rw [hadv.2.2]
        push_cast at hk ⊢
        linarith [hadv.1]
      · rw [schedulerLoop, if_neg hcond]

lemma schedulerLoop_terminates (now : ℚ) (s : SoundState)
    (hc : s.audioCtx = true) (hb : 0 < s.currentBPM) :
    ∃ fuel : ℕ, (schedulerLoop now fuel s).2 = true := by
  obtain ⟨k, hk⟩ :=
    exists_nat_ge ((now + 0.1 - s.nextNoteTime) * s.currentBPM / 30)
  refine ⟨k, schedulerLoop_term_of_fuel now k s hc hb ?_⟩
  rw [div_le_iff₀ (by norm_num : (0 : ℚ) < 30)] at hk
  rw [← mul_div_assoc, le_div_iff₀ hb]
  linarith

/-- A playback state whose tempo was set to a negative value via
`setBPM (-110)`: each step moves `nextNoteTime` backwards, so the
look-ahead loop never reaches its exit condition. -/
def badBpmState : SoundState :=
  { ctxState with musicPlaying := true, currentBPM := -110 }

lemma schedulerLoop_stuck_neg_bpm :
    ∀ (fuel : ℕ) (s : SoundState), s.audioCtx = true →
      s.currentBPM = -110 → s.nextNoteTime ≤ 0 →
      (schedulerLoop 0 fuel s).2 = false := by
  intro fuel
  induction fuel with
  | zero =>
      intro s hc hb hn
      have hcond : s.nextNoteTime < clockNow 0 s + 0.1 := by
        simp only [clockNow, hc, if_true]
        norm_num
        linarith
      simp [schedulerLoop, hcond]
  | succ fuel ih =>
      intro s hc hb hn
      have hcond : s.nextNoteTime < clockNow 0 s + 0.1 := by
        simp only [clockNow, hc, if_true]
        norm_num
        linarith
      rw [schedulerLoop, if_pos hcond]
      obtain ⟨note, hm, hd⟩ := melody_lookup s.currentNote
      obtain ⟨bn, hbn⟩ := bassLine_lookup s.currentNote
      rw [scheduleNote_eq s.nextNoteTime s hc hm hbn]
      apply ih
      · exact hc
      · exact hb
      · show s.nextNoteTime + ↑note.d * (60 / s.currentBPM / 4) ≤ 0
        rw [hb]
        have hdq : (0 : ℚ) ≤ (note.d : ℚ) := by positivity
        have h2 : (60 / (-110 : ℚ) / 4) = -3 / 22 := by norm_num
        rw [h2]
        nlinarith

/-- C10: with the current tempo positive (and every melody duration
positive, a fact of the static table), each `scheduleNote` call strictly
increases `nextNoteTime` by `durationSteps * (60/bpm/4) > 0`, and the
scheduler's inner while-loop terminates (some finite fuel reaches the
exit condition); without that precondition — `setBPM` stores any value,
e.g. -110 — the loop runs forever (no fuel ever reaches the exit). -/
theorem scheduler_loop_termination (now : ℚ) (s : SoundState)
    (hc : s.audioCtx = true) (hb : 0 < s.currentBPM) :
    (∀ i : Fin melody.length, 0 < (melody.get i).d) ∧
    (∃ note : Note, melody[s.currentNote % melody.length]? = some note ∧
      (scheduleNote s.nextNoteTime s).nextNoteTime =
        s.nextNoteTime + note.d * (60 / s.currentBPM / 4) ∧
      s.nextNoteTime < (scheduleNote s.nextNoteTime s).nextNoteTime) ∧
    (∃ fuel : ℕ, (schedulerLoop now fuel s).2 = true) ∧
    (∀ fuel : ℕ, (schedulerLoop 0 fuel badBpmState).2 = false) := by
  refine ⟨fun i => lt_of_lt_of_le (by norm_num) (melody_d_ge_two i), ?_,
    schedulerLoop_terminates now s hc hb,
    fun fuel => schedulerLoop_stuck_neg_bpm fuel badBpmState rfl rfl
      (by norm_num [badBpmState, ctxState, initState])⟩
  obtain ⟨note, hm, hd⟩ := melody_lookup s.currentNote
  obtain ⟨bn, hbn⟩ := bassLine_lookup s.currentNote
  refine ⟨note, hm, ?_, ?_⟩
  · rw [scheduleNote_eq s.nextNoteTime s hc hm hbn]
  · rw [scheduleNote_eq s.nextNoteTime s hc hm hbn]
    have hdq : (2 : ℚ) ≤ (note.d : ℚ) := by exact_mod_cast hd
    have hpos : (0 : ℚ) < 60 / s.currentBPM / 4 := by positivity
    show s.nextNoteTime < s.nextNoteTime + ↑note.d * (60 / s.currentBPM / 4)
    nlinarith

/-- Witness for C1 at the concrete state `ctxState` and new tempo 120. -/
theorem melody_voice_span_tempo_snapshot_witness :
    ctxState.audioCtx = true ∧ (0 : ℚ) < ctxState.currentBPM ∧
    (∃ note bn : Note,
      melody[ctxState.currentNote % melody.length]? = some note ∧
      bassLine[ctxState.currentNote % bassLine.length]? = some bn ∧
      (stepOnce ctxState).scheduled = ctxState.scheduled ++
        [{ wave := .triangle, freqStart := note.f, freqEnd := note.f,
           gainPeak := 0.1, start := ctxState.nextNoteTime,
           stop := ctxState.nextNoteTime +
             note.d * (60 / ctxState.currentBPM / 4) },
         { wave := .sine, freqStart := bn.f, freqEnd := bn.f,
           gainPeak := 0.15, start := ctxState.nextNoteTime,
           stop := ctxState.nextNoteTime +
             bn.d * (60 / ctxState.currentBPM / 4) }] ∧
      ctxState.nextNoteTime < ctxState.nextNoteTime +
        note.d * (60 / ctxState.currentBPM / 4) ∧
      setBPM 120 (stepOnce ctxState) =
        { stepOnce ctxState with currentBPM := 120 } ∧
      (setBPM 120 (stepOnce ctxState)).scheduled =
        (stepOnce ctxState).scheduled) :=
  ⟨rfl, by norm_num [ctxState, initState],
   melody_voice_span_tempo_snapshot ctxState 120 rfl
     (by norm_num [ctxState, initState])⟩

/-- Witness for C2 at 25 steps from the concrete state `ctxState`. -/
theorem track_index_cyclic_in_bounds_witness :
    ctxState.audioCtx = true ∧ ctxState.currentNote = 0 ∧
    ((afterSteps 25 ctxState).currentNote = 25 ∧
     (afterSteps 25 ctxState).currentNote % melody.length =
       25 % melody.length ∧
     (afterSteps 25 ctxState).currentNote % bassLine.length =
       25 % bassLine.length ∧
     25 % melody.length < melody.length ∧
     25 % bassLine.length < bassLine.length ∧
     (melody[(afterSteps 25 ctxState).currentNote % melody.length]?).isSome =
       true ∧
     (bassLine[(afterSteps 25 ctxState).currentNote %
       bassLine.length]?).isSome = true ∧
     (afterSteps (25 + 1) ctxState).currentNote % melody.length =
       ((afterSteps 25 ctxState).currentNote + 1) % melody.length) :=
  ⟨rfl, rfl, track_index_cyclic_in_bounds 25 ctxState rfl rfl⟩

/-- Witness for C3: first start at clock 0, then two re-entrant starts at
clocks 1 and 2. -/
theorem startMusic_reentrant_single_loop_witness :
    ctxState.musicPlaying = false ∧ ctxState.audioCtx = true ∧
    ctxState.pendingTimers = 0 ∧
    ((runStart true 5 1 ctxState 0).musicPlaying = true ∧
     (runStart true 5 1 ctxState 0).pendingTimers = 1 ∧
     (∀ now1, startMusic true 5 now1 1 (runStart true 5 1 ctxState 0) =
       .ok (runStart true 5 1 ctxState 0)) ∧
     ([1, 2] : List ℚ).foldl (runStart true 5 1) (runStart true 5 1 ctxState 0) =
       runStart true 5 1 ctxState 0 ∧
     (([1, 2] : List ℚ).foldl (runStart true 5 1)
       (runStart true 5 1 ctxState 0)).pendingTimers = 1) :=
  ⟨rfl, rfl, rfl,
   startMusic_reentrant_single_loop true 5 1 0 [1, 2] ctxState rfl rfl rfl⟩

/-- Witness for C4 amended: scheduling at time 42 from `ctxState`. -/
theorem scheduleNote_commits_regardless_of_clock_witness :
    ctxState.audioCtx = true ∧
    (∃ vs : List Voice, vs ≠ [] ∧
      (scheduleNote 42 ctxState).scheduled = ctxState.scheduled ++ vs ∧
      ∀ v ∈ vs, v.start = 42) :=
  ⟨rfl, scheduleNote_commits_regardless_of_clock 42 ctxState rfl⟩

/-- Witness for C6 amended at the initial state (context never created). -/
theorem init_failure_noop_except_startMusic_witness :
    initState.audioCtx = false ∧
    (playPopSound false 2 initState = initState ∧
     playFlavorSound false 2 Flavor.LEMON initState = initState ∧
     playSuccessSound false 2 initState = initState ∧
     playErrorSound false 2 initState = initState ∧
     playGameOverSound false 2 initState = initState ∧
     setVolumes 9 9 initState =
       { initState with sfxVolume := 9, musicVolume := 9 } ∧
     setBPM (-1) initState = { initState with currentBPM := -1 } ∧
     (stopMusic initState).scheduled = initState.scheduled ∧
     (stopMusic initState).audioCtx = false ∧
     startMusic false 3 2 1 initState = Except.error ()) :=
  ⟨rfl, init_failure_noop_except_startMusic initState 2 3 1 Flavor.LEMON
    9 9 (-1) rfl⟩

/-- Witness for C9 amended at the concrete mid-playback state. -/
theorem stopMusic_halts_tick_keeps_cursors_witness :
    stoppedCexState.audioCtx = true ∧
    ((stopMusic stoppedCexState).musicPlaying = false ∧
     (stopMusic stoppedCexState).scheduled = stoppedCexState.scheduled ∧
     (stopMusic stoppedCexState).currentNote = stoppedCexState.currentNote ∧
     (stopMusic stoppedCexState).nextNoteTime =
       stoppedCexState.nextNoteTime ∧
     (stopMusic stoppedCexState).pendingTimers =
       (if stoppedCexState.timerID.isSome then
         stoppedCexState.pendingTimers - 1
       else stoppedCexState.pendingTimers) ∧
     (∀ fuel2 now2 tid2, scheduler fuel2 now2 tid2 (stopMusic stoppedCexState) =
       (stopMusic stoppedCexState, true)) ∧
     (∃ s1, startMusic true 5 0 1 (stopMusic stoppedCexState) = .ok s1 ∧
        s1.currentNote = 0 ∧ s1.nextNoteTime = 0 + 0.1 ∧
        s1.scheduled = stoppedCexState.scheduled)) :=
  ⟨rfl, stopMusic_halts_tick_keeps_cursors stoppedCexState 5 1 0 rfl⟩

/-- Witness for C10 at the concrete state `ctxState` (tempo 110) and
clock 0. -/
theorem scheduler_loop_termination_witness :
    ctxState.audioCtx = true ∧ (0 : ℚ) < ctxState.currentBPM ∧
    ((∀ i : Fin melody.length, 0 < (melody.get i).d) ∧
     (∃ note : Note, melody[ctxState.currentNote % melody.length]? =
         some note ∧
       (scheduleNote ctxState.nextNoteTime ctxState).nextNoteTime =
         ctxState.nextNoteTime + note.d * (60 / ctxState.currentBPM / 4) ∧
       ctxState.nextNoteTime <
         (scheduleNote ctxState.nextNoteTime ctxState).nextNoteTime) ∧
     (∃ fuel : ℕ, (schedulerLoop 0 fuel ctxState).2 = true) ∧
     (∀ fuel : ℕ, (schedulerLoop 0 fuel badBpmState).2 = false)) :=
  ⟨rfl, by norm_num [ctxState, initState],
   scheduler_loop_termination 0 ctxState rfl
     (by norm_num [ctxState, initState])⟩
